import Mathlib

/-!
Shallow embedding of src/www/assets/js/app.js (the "shh" browser chat client):
the input-mode state machine, the click/input event wiring, the MediaRecorder
capture pipeline, and the EventSource streaming-reply assembler.

JavaScript specifics modelled explicitly:
- string truthiness (empty string is falsy, undefined is falsy);
- the three glyph entities used as state keys;
- reading an undeclared identifier raising a ReferenceError;
- calling replaceWith on a null reference raising a TypeError.
-/

namespace Shh

/-- Glyph entities used both as button labels and as state-machine states:
ENTITY_MICROPHONE, ENTITY_RECORD, ENTITY_SUBMIT (app.js lines 5-7). -/
inductive Entity
  | microphone
  | record
  | submit
deriving DecidableEq, Repr

/-- The value passed to inputStateMachine.transition: either the text field
string (input events, submit path) or no argument at all (the toggle call
made from the click handler, JS undefined). -/
inductive Signal
  | str (s : String)
  | toggle
deriving DecidableEq, Repr

/-- JavaScript truthiness of a transition signal: a string is truthy iff
non-empty; undefined (the toggle) is falsy. -/
def jsTruthy : Signal → Bool
  | .str s => s ≠ ""
  | .toggle => false

/-- Runtime errors the embedded code can raise. -/
inductive JsErr
  | referenceError
  | typeError
deriving DecidableEq, Repr

/-- The states dictionary of inputStateMachine (app.js lines 11-21):
property lookup on the key, returning the handler when the key is present.
Each handler is translated from its arrow function:
- ENTITY_MICROPHONE: typeof value === string ? (!value ? MIC : SUBMIT) : RECORD
- ENTITY_SUBMIT: value ? SUBMIT : MIC  (truthiness, so undefined also gives MIC)
- ENTITY_RECORD: () => MIC -/
def inputStateMachineStates : Entity → Option (Signal → Entity)
  | .microphone => some fun v =>
      match v with
      | .str s => if s = "" then .microphone else .submit
      | .toggle => .record
  | .submit => some fun v => if jsTruthy v then .submit else .microphone
  | .record => some fun _ => .microphone

/-- inputStateMachine.transition (app.js lines 22-26) as it can fail: looks
the current state up in the states dictionary and applies the handler; a
missing key would make the call throw a TypeError. -/
def transitionE (st : Entity) (v : Signal) : Except JsErr Entity :=
  match inputStateMachineStates st with
  | none => .error .typeError
  | some fn => .ok (fn v)

/-- Total form of the transition function (every state key is present in the
dictionary, as transitionE_ok proves). -/
def inputStateMachineStep (st : Entity) (v : Signal) : Entity :=
  match st with
  | .microphone =>
      match v with
      | .str s => if s = "" then .microphone else .submit
      | .toggle => .record
  | .submit => if jsTruthy v then .submit else .microphone
  | .record => .microphone

theorem transitionE_ok (st : Entity) (v : Signal) :
    transitionE st v = .ok (inputStateMachineStep st v) := by
  cases st <;> cases v <;> rfl

/-! Streaming Response Assembler: createEventSource (app.js lines 106-129). -/

/-- One push-channel payload, JSON of shape content plus done
(spec section 6; parsed at app.js line 112). -/
structure ChunkMsg where
  content : String
  done : Bool
deriving DecidableEq, Repr

/-- Mutable closure state of createEventSource: el (the anchor node, null
until the first placeholder is created, modelled by a node id) and chunks.
nextId supplies fresh ids for document.createElement. -/
structure ESState where
  el : Option Nat
  chunks : List String
  nextId : Nat
deriving DecidableEq, Repr

/-- Closure state right after createEventSource runs: el = null, chunks = []. -/
def esInit : ESState := { el := none, chunks := [], nextId := 0 }

/-- Observable timeline actions of the assembler. -/
inductive RenderEv
  | addPlaceholder (id : Nat)
  | replaceWith (anchor : Nat) (text : String)
deriving DecidableEq, Repr

/-- Result of one onmessage invocation: either it returns, or it throws a
JS error; either way the closure state it left behind is recorded (a throw
happens after chunks.push but before chunks is reset). -/
inductive StepResult
  | ok (st : ESState) (evs : List RenderEv)
  | err (st : ESState) (evs : List RenderEv) (e : JsErr)
deriving DecidableEq, Repr

/-- eventSource.onmessage (app.js lines 111-121): push the content, then if
done replace el with the joined chunks and clear them (replaceWith on a null
el throws a TypeError), else if this was the first chunk create the
responding indicator and remember it as el. -/
def onmessage (st : ESState) (m : ChunkMsg) : StepResult :=
  let chunks := st.chunks ++ [m.content]
  if m.done then
    match st.el with
    | none => .err { st with chunks := chunks } [] .typeError
    | some a => .ok { st with chunks := [] } [.replaceWith a (String.join chunks)]
  else if chunks.length = 1 then
    .ok { el := some st.nextId, chunks := chunks, nextId := st.nextId + 1 }
      [.addPlaceholder st.nextId]
  else
    .ok { st with chunks := chunks } []

/-- Deliver a list of channel messages in order, accumulating the render
events; an uncaught throw in a handler stops that delivery (later messages
would still be delivered by the browser, but for the traces we study the
run ends at the error). -/
def runMessages (st : ESState) : List ChunkMsg → StepResult
  | [] => .ok st []
  | m :: ms =>
      match onmessage st m with
      | .ok st1 evs =>
          match runMessages st1 ms with
          | .ok st2 evs2 => .ok st2 (evs ++ evs2)
          | .err st2 evs2 e => .err st2 (evs ++ evs2) e
      | .err st1 evs e => .err st1 evs e

/-! Channel error handler: eventSource.onerror (app.js lines 123-126).
The handler body interpolates the identifier err into a template literal,
but the only names in scope are the parameter error, the createEventSource
locals, the module-level bindings of the IIFE, and the browser globals;
reading the undeclared identifier err throws a ReferenceError before
console.error is called and before eventSource.close() runs. -/

/-- Effects the onerror handler is supposed to produce. -/
inductive ChannelEffect
  | consoleError
  | closeSubscription
deriving DecidableEq, Repr

/-- Identifiers visible inside the arrow function at app.js lines 123-126:
its parameter, the createEventSource closure, the IIFE scope and the
standard browser globals the script uses. -/
def onerrorScopeNames : List String :=
  ["error", "el", "chunks", "eventSource",
   "ENTITY_MICROPHONE", "ENTITY_RECORD", "ENTITY_SUBMIT",
   "inputStateMachine", "messages", "createRespondingIndicator",
   "createMessageElement", "addMessage", "appendToMessage",
   "addAudioMessage", "createEventSource", "messageButton",
   "createMediaRecorder", "messageInput", "onMessageInputChange",
   "postMessage", "addTextMessage", "mediaRecorder", "marked",
   "window", "document", "navigator", "console", "EventSource",
   "MediaRecorder", "Blob", "FileReader", "URL", "JSON", "fetch",
   "requestAnimationFrame"]

/-- Evaluation of the onerror handler body: the template literal evaluates
the identifier err first; if it is not bound in scope the evaluation throws
ReferenceError, otherwise the handler logs and closes the subscription. -/
def evalOnerrorBody : Except JsErr (List ChannelEffect) :=
  if "err" ∈ onerrorScopeNames then
    .ok [.consoleError, .closeSubscription]
  else
    .error .referenceError

/-! Interactive page model: the text field, the action button, the
mediaRecorder binding, and the handlers wired at app.js lines 160-227. -/

/-- Lifecycle state of the MediaRecorder (the attribute read at app.js
lines 208 and 212). -/
inductive RecorderState
  | inactive
  | recording
deriving DecidableEq, Repr

/-- Page state touched by the handlers: the state machine's current state,
messageInput.value, the mediaRecorder variable (none until the getUserMedia
promise resolves, app.js line 223), the button's innerHTML glyph, and
whether the pulse classes are on the button. -/
structure AppState where
  mode : Entity
  field : String
  recorder : Option RecorderState
  buttonGlyph : Entity
  pulse : Bool
deriving DecidableEq, Repr

/-- Page state once the script finishes its top-level run. -/
def appInitState : AppState :=
  { mode := .microphone, field := "", recorder := none,
    buttonGlyph := .microphone, pulse := false }

/-- Externally visible actions of the handlers. -/
inductive Effect
  | post (type : String) (data : String)
  | renderSelfText (text : String)
  | renderSelfAudio (bytes : List Nat)
  | clearField
  | reevalMode
  | startRecording
  | stopRecording
  | logError (msg : String)
deriving DecidableEq, Repr

/-- onMessageInputChange (app.js lines 160-166): run the transition on the
current field value and update the button glyph only when the state
changed. -/
def onMessageInputChange (st : AppState) : AppState :=
  let next := inputStateMachineStep st.mode (.str st.field)
  { st with
    mode := next
    buttonGlyph := if st.mode ≠ next then next else st.buttonGlyph }

/-- An input event on the message field: the DOM has already updated the
field's value when the listener (app.js line 168) runs. -/
def onInputEvent (st : AppState) (s : String) : AppState :=
  onMessageInputChange { st with field := s }

/-- addTextMessage (app.js lines 177-185): post the field text, then in the
animation frame render the self message, clear the field, and rerun
onMessageInputChange on the now-empty field. -/
def addTextMessage (st : AppState) : AppState × List Effect :=
  let text := st.field
  let st1 := onMessageInputChange { st with field := "" }
  (st1, [.post "text" text, .renderSelfText text, .clearField, .reevalMode])

/-- The click listener on the message button (app.js lines 195-217): a
non-empty field routes to addTextMessage; an empty field with no recorder
logs and returns; otherwise the toggle transition runs and the recorder is
started or stopped according to its own lifecycle state, updating the pulse
classes and the glyph. -/
def messageButtonClick (st : AppState) : AppState × List Effect :=
  if st.field ≠ "" then
    addTextMessage st
  else
    match st.recorder with
    | none => (st, [.logError "mediaRecorder is not available"])
    | some r =>
        let mode1 := inputStateMachineStep st.mode .toggle
        match r with
        | .inactive =>
            ({ st with
                mode := mode1
                buttonGlyph := mode1
                pulse := true
                recorder := some .recording },
             [.startRecording])
        | .recording =>
            ({ st with
                mode := mode1
                buttonGlyph := mode1
                pulse := false
                recorder := some .inactive },
             [.stopRecording])

/-- Events that can hit the page: an input event carrying the field's new
value, a click on the action button, and the getUserMedia promise resolving
(which creates the MediaRecorder, app.js lines 221-224). The promise
resolves at most once, so the guard on an already-present recorder is never
exercised in a real trace. -/
inductive UIEvent
  | input (s : String)
  | click
  | grantRecorder
deriving DecidableEq, Repr

/-- Dispatch one event to its handler. -/
def uiStep (st : AppState) : UIEvent → AppState × List Effect
  | .input s => (onInputEvent st s, [])
  | .click => messageButtonClick st
  | .grantRecorder =>
      (if st.recorder = none then { st with recorder := some .inactive } else st, [])

/-- Run a trace of events, accumulating effects in order. -/
def runUI (st : AppState) : List UIEvent → AppState × List Effect
  | [] => (st, [])
  | e :: es =>
      let (st1, effs) := uiStep st e
      let (st2, effs2) := runUI st1 es
      (st2, effs ++ effs2)

/-- A capture session is open exactly when the recorder exists and is
recording. -/
def sessionOpen (st : AppState) : Prop := st.recorder = some .recording

instance (st : AppState) : Decidable (sessionOpen st) := by
  unfold sessionOpen; infer_instance

/-- The mode/field/session correspondence claimed by the spec: SUBMIT iff
the field is non-empty and no session is open, RECORDING iff a session is
open; an open session implies the field was empty when it opened and has
not changed since. -/
def modeInvariant (st : AppState) : Prop :=
  (st.mode = .submit ↔ (st.field ≠ "" ∧ ¬ sessionOpen st)) ∧
  (st.mode = .record ↔ sessionOpen st) ∧
  (sessionOpen st → st.field = "")

/-- Traces in which no input event is delivered while a capture session is
open. -/
def noInputWhileRecording (st : AppState) : List UIEvent → Prop
  | [] => True
  | e :: es =>
      ((∃ s, e = UIEvent.input s) → ¬ sessionOpen st) ∧
      noInputWhileRecording (uiStep st e).1 es

/-! Audio capture pipeline: createMediaRecorder (app.js lines 133-156).
Audio chunks are byte lists; the browser's readAsDataURL is modelled as the
data URL prefix followed by standard base64; the regex replace at line 150
strips the longest prefix ending in the marker base64 comma. -/

/-- Standard base64 alphabet used by the data URL encoding. -/
def base64Chars : List Char :=
  "ABCDEFGHIJKLMNOPQRSTUVWXYZabcdefghijklmnopqrstuvwxyz0123456789+/".toList

/-- Character at an index of the base64 alphabet. -/
def b64char (n : Nat) : Char := base64Chars.getD n 'A'

/-- Base64 of a byte list (24-bit groups, = padding), as readAsDataURL
produces it. -/
def base64Encode : List Nat → List Char
  | [] => []
  | [b1] => [b64char (b1 / 4), b64char (b1 % 4 * 16), '=', '=']
  | [b1, b2] =>
      [b64char (b1 / 4), b64char (b1 % 4 * 16 + b2 / 16), b64char (b2 % 16 * 4), '=']
  | b1 :: b2 :: b3 :: rest =>
      b64char (b1 / 4) :: b64char (b1 % 4 * 16 + b2 / 16) ::
        b64char (b2 % 16 * 4 + b3 / 64) :: b64char (b3 % 64) :: base64Encode rest

/-- Whether the first list is a prefix of the second (Boolean, on chars). -/
def listStartsWith : List Char → List Char → Bool
  | [], _ => true
  | _ :: _, [] => false
  | p :: ps, c :: cs => p == c && listStartsWith ps cs

/-- The literal tail of the regex at app.js line 150. -/
def b64Marker : List Char := "base64,".toList

/-- The suffix following the LAST occurrence of the marker, if the marker
occurs: the greedy dot-star of the regex consumes as much as possible, so
the replace removes everything through the last marker occurrence. -/
def afterLastMarker : List Char → Option (List Char)
  | [] => none
  | c :: rest =>
      match afterLastMarker rest with
      | some r => some r
      | none =>
          if listStartsWith b64Marker (c :: rest) then
            some ((c :: rest).drop b64Marker.length)
          else none

/-- reader.result.replace at app.js line 150: strip through the last
base64 marker when present, else leave the string unchanged. -/
def jsReplaceUpToB64 (s : List Char) : List Char :=
  match afterLastMarker s with
  | some r => r
  | none => s

/-- MIME type given to the Blob at app.js line 142. -/
def blobMime : String := "audio/ogg; codecs=opus"

/-- FileReader.readAsDataURL output for the opus-in-ogg blob. -/
def dataURLChars (bytes : List Nat) : List Char :=
  ("data:" ++ blobMime ++ ";base64,").toList ++ base64Encode bytes

/-- mediaRecorder.ondataavailable (app.js lines 137-139): push the event's
data onto the chunk buffer. -/
def mediaRecorderOnData (chunks : List (List Nat)) (d : List Nat) : List (List Nat) :=
  chunks ++ [d]

/-- Outcome of the onstop handler. -/
structure RecorderStopResult where
  chunks : List (List Nat)
  blobBytes : List Nat
  blobMimeType : String
  effects : List Effect
deriving DecidableEq, Repr

/-- mediaRecorder.onstop (app.js lines 141-153): build the blob from the
accumulated chunks, clear the buffer, render the local audio self-message,
then (in the reader's onloadend) post the stripped base64 of the data URL
with type audio. -/
def mediaRecorderOnStop (chunks : List (List Nat)) : RecorderStopResult :=
  let blob := chunks.flatten
  { chunks := []
    blobBytes := blob
    blobMimeType := blobMime
    effects := [.renderSelfAudio blob,
                .post "audio" (String.mk (jsReplaceUpToB64 (dataURLChars blob)))] }

/-! Bootstrap guard (app.js lines 29-32) and top-level wiring order. -/

/-- Presence of the capture API on the navigator object. -/
structure MediaDevicesAPI where
  hasGetUserMedia : Bool
deriving DecidableEq, Repr

/-- The navigator object as the guard reads it. -/
structure Navigator where
  mediaDevices : Option MediaDevicesAPI
deriving DecidableEq, Repr

/-- Top-level actions of the IIFE after the guard. -/
inductive InitEffect
  | logError (msg : String)
  | attachInputListener
  | attachKeydownListener
  | attachClickListener
  | openEventSource
  | requestUserMedia
deriving DecidableEq, Repr

/-- The module body: if navigator.mediaDevices or its getUserMedia is
missing, log and return before any wiring; otherwise attach the input,
keydown and click listeners, open the EventSource subscription, and request
user media (app.js lines 29-32 and 168, 187, 195, 219, 221). -/
def appInit (nav : Navigator) : List InitEffect :=
  match nav.mediaDevices with
  | none => [.logError "getUserMedia unsupported"]
  | some md =>
      if !md.hasGetUserMedia then
        [.logError "getUserMedia unsupported"]
      else
        [.attachInputListener, .attachKeydownListener, .attachClickListener,
         .openEventSource, .requestUserMedia]

/-- The getUserMedia promise rejecting (app.js lines 225-227): the catch
logs once; no state is touched, so the mediaRecorder variable stays unset. -/
def getUserMediaReject (st : AppState) : AppState × List Effect :=
  (st, [.logError "error encountered from getUserMedia"])

/-! Theorems. -/

/-- Transitioning on the empty string lands in MIC from every state. -/
theorem step_emptyStr_microphone (m : Entity) :
    inputStateMachineStep m (.str "") = .microphone := by
  cases m <;> rfl

/-- C2: evaluated at every mode and signal, the transition function returns
SUBMIT from MIC on a non-empty string and MIC on the empty string, RECORDING
from MIC on the toggle, SUBMIT from SUBMIT on a non-empty string and MIC on
the empty string, MIC from RECORDING on any signal (including the
no-argument toggle), and the underlying dictionary dispatch never throws. -/
theorem C2_transition_function_cases :
    (∀ s : String, s ≠ "" → inputStateMachineStep .microphone (.str s) = .submit) ∧
    inputStateMachineStep .microphone (.str "") = .microphone ∧
    inputStateMachineStep .microphone .toggle = .record ∧
    (∀ s : String, s ≠ "" → inputStateMachineStep .submit (.str s) = .submit) ∧
    inputStateMachineStep .submit (.str "") = .microphone ∧
    (∀ v, inputStateMachineStep .record v = .microphone) ∧
    (∀ st v, transitionE st v = .ok (inputStateMachineStep st v)) := by
  refine ⟨?_, rfl, rfl, ?_, rfl, fun v => rfl, transitionE_ok⟩
  · intro s hs
    simp [inputStateMachineStep, hs]
  · intro s hs
    simp [inputStateMachineStep, jsTruthy, hs]

/-- Witness for C2 at the concrete signal value "hi". -/
theorem C2_transition_function_cases_witness :
    inputStateMachineStep .microphone (.str "hi") = .submit ∧
    inputStateMachineStep .submit (.str "hi") = .submit :=
  ⟨C2_transition_function_cases.1 "hi" (by decide),
   C2_transition_function_cases.2.2.2.1 "hi" (by decide)⟩

/-- C4: the spec says a channel-level error is logged and the subscription
closed without further error, but the handler body reads the undeclared
identifier err (its parameter is named error), so evaluating the template
literal throws a ReferenceError: nothing is logged and eventSource.close()
is never reached. -/
theorem C4_onerror_throws_referenceError :
    evalOnerrorBody = .error .referenceError := by
  have h : ("err" ∈ onerrorScopeNames) = False := by
    simp [onerrorScopeNames]
  rw [evalOnerrorBody, if_neg (h ▸ id)]

/-- C9: a very first channel message with done true pushes its content and
then calls replaceWith through the still-null anchor, throwing a TypeError
with no partner message rendered; with done false the same message is
handled, creating the placeholder. -/
theorem C9_first_done_chunk_throws (c : String) :
    onmessage esInit ⟨c, true⟩ = .err ⟨none, [c], 0⟩ [] .typeError ∧
    onmessage esInit ⟨c, false⟩ = .ok ⟨some 0, [c], 1⟩ [.addPlaceholder 0] := by
  exact ⟨rfl, rfl⟩

/-- C10: when navigator.mediaDevices or its getUserMedia member is absent,
the module body logs one error and returns before attaching any listener or
opening the push-channel subscription. -/
theorem C10_missing_capture_api_inert (nav : Navigator)
    (h : nav.mediaDevices = none ∨
      ∃ md, nav.mediaDevices = some md ∧ md.hasGetUserMedia = false) :
    appInit nav = [.logError "getUserMedia unsupported"] := by
  rcases h with h | ⟨md, hmd, hg⟩
  · simp [appInit, h]
  · simp [appInit, hmd, hg]

/-- Witness for C10 on a navigator with no mediaDevices object. -/
theorem C10_missing_capture_api_inert_witness :
    appInit ⟨none⟩ = [.logError "getUserMedia unsupported"] :=
  C10_missing_capture_api_inert ⟨none⟩ (Or.inl rfl)

/-- A click with a non-empty field takes the addTextMessage path. -/
theorem messageButtonClick_text (st : AppState) (h : st.field ≠ "") :
    messageButtonClick st =
      (onMessageInputChange { st with field := "" },
       [.post "text" st.field, .renderSelfText st.field, .clearField,
        .reevalMode]) := by
  simp [messageButtonClick, addTextMessage, h]

/-- C6: a click with a non-empty field value renders exactly one self
message with that text, with the visible order render, then clear, then
mode re-evaluation, and the resulting mode is MIC with the field empty. -/
theorem C6_text_submission_order (st : AppState) (t : String)
    (hf : st.field = t) (ht : t ≠ "") :
    (messageButtonClick st).2 =
      [.post "text" t, .renderSelfText t, .clearField, .reevalMode] ∧
    (messageButtonClick st).2.count (.renderSelfText t) = 1 ∧
    (messageButtonClick st).1.mode = .microphone ∧
    (messageButtonClick st).1.field = "" := by
  subst hf
  rw [messageButtonClick_text st ht]
  refine ⟨rfl, ?_, ?_, rfl⟩
  · simp [List.count_cons]
  · exact step_emptyStr_microphone st.mode

/-- Witness for C6: the field contains "hi" and the button is clicked. -/
theorem C6_text_submission_order_witness :
    (messageButtonClick
        ⟨.submit, "hi", none, .submit, false⟩).2 =
      [.post "text" "hi", .renderSelfText "hi", .clearField, .reevalMode] ∧
    (messageButtonClick ⟨.submit, "hi", none, .submit, false⟩).1.mode =
      .microphone :=
  ⟨(C6_text_submission_order ⟨.submit, "hi", none, .submit, false⟩ "hi" rfl
      (by decide)).1,
   (C6_text_submission_order ⟨.submit, "hi", none, .submit, false⟩ "hi" rfl
      (by decide)).2.2.1⟩

/-- C7: a rejected getUserMedia request produces exactly one logged failure,
creates no recorder, leaves the mode at MIC, and afterwards typing a
non-empty text and clicking still performs the normal text submission. -/
theorem C7_capture_denied (st : AppState)
    (hm : st.mode = .microphone) (hr : st.recorder = none) :
    (getUserMediaReject st).2 =
      [.logError "error encountered from getUserMedia"] ∧
    (getUserMediaReject st).1.mode = .microphone ∧
    (getUserMediaReject st).1.recorder = none ∧
    (∀ s : String, s ≠ "" →
      (messageButtonClick (onInputEvent (getUserMediaReject st).1 s)).2 =
        [.post "text" s, .renderSelfText s, .clearField, .reevalMode] ∧
      (messageButtonClick (onInputEvent (getUserMediaReject st).1 s)).1.mode =
        .microphone) := by
  refine ⟨rfl, hm, hr, ?_⟩
  intro s hs
  have h2 := messageButtonClick_text (onInputEvent st s) hs
  rw [show (getUserMediaReject st).1 = st from rfl, h2]
  exact ⟨rfl, step_emptyStr_microphone _⟩

/-- Witness for C7 from the fresh page state with text "hi". -/
theorem C7_capture_denied_witness :
    (getUserMediaReject appInitState).2 =
      [.logError "error encountered from getUserMedia"] ∧
    (messageButtonClick (onInputEvent (getUserMediaReject appInitState).1 "hi")).2 =
      [.post "text" "hi", .renderSelfText "hi", .clearField, .reevalMode] :=
  ⟨(C7_capture_denied appInitState rfl rfl).1,
   ((C7_capture_denied appInitState rfl rfl).2.2.2 "hi" (by decide)).1⟩

/-- C5: with the field empty and a recorder available, a click while the
recorder is recording emits exactly one stop and no start, a click while it
is inactive emits exactly one start and no stop, and the two-click
start-then-stop trace from the fresh page state emits exactly one start
followed by exactly one stop. -/
theorem C5_click_routing (st1 st2 : AppState)
    (h1f : st1.field = "") (h1r : st1.recorder = some .recording)
    (h2f : st2.field = "") (h2r : st2.recorder = some .inactive) :
    (messageButtonClick st1).2 = [.stopRecording] ∧
    (messageButtonClick st2).2 = [.startRecording] ∧
    (runUI appInitState [.grantRecorder, .click, .click]).2 =
      [.startRecording, .stopRecording] := by
  refine ⟨?_, ?_, rfl⟩
  · simp [messageButtonClick, h1f, h1r]
  · simp [messageButtonClick, h2f, h2r]

/-- Witness for C5 at concrete recording and inactive page states. -/
theorem C5_click_routing_witness :
    (messageButtonClick ⟨.record, "", some .recording, .record, true⟩).2 =
      [.stopRecording] ∧
    (messageButtonClick ⟨.microphone, "", some .inactive, .microphone, false⟩).2 =
      [.startRecording] :=
  ⟨(C5_click_routing ⟨.record, "", some .recording, .record, true⟩
      ⟨.microphone, "", some .inactive, .microphone, false⟩ rfl rfl rfl rfl).1,
   (C5_click_routing ⟨.record, "", some .recording, .record, true⟩
      ⟨.microphone, "", some .inactive, .microphone, false⟩ rfl rfl rfl rfl).2.1⟩

/-- The base64 alphabet lookup never yields a comma. -/
theorem b64char_ne_comma (n : Nat) : b64char n ≠ ',' := by
  unfold b64char
  by_cases h : n < base64Chars.length
  · have hmem : base64Chars.getD n 'A' ∈ base64Chars := by
      rw [List.getD_eq_getElem _ _ h]
      exact List.getElem_mem h
    intro heq
    rw [heq] at hmem
    revert hmem
    decide
  · rw [List.getD_eq_default _ _ (Nat.le_of_not_lt h)]
    decide

/-- Base64 output never contains a comma. -/
theorem comma_not_mem_base64Encode (bs : List Nat) : ',' ∉ base64Encode bs := by
  induction bs using base64Encode.induct with
  | case1 => simp [base64Encode]
  | case2 b1 =>
      simp only [base64Encode]
      intro hm
      rcases List.mem_cons.mp hm with h | hm <;>
        [skip; rcases List.mem_cons.mp hm with h | hm] <;>
        first
          | exact b64char_ne_comma _ h.symm
          | revert hm; decide
  | case3 b1 b2 =>
      simp only [base64Encode]
      intro hm
      rcases List.mem_cons.mp hm with h | hm <;>
        [skip; rcases List.mem_cons.mp hm with h | hm] <;>
        [skip; skip; rcases List.mem_cons.mp hm with h | hm] <;>
        first
          | exact b64char_ne_comma _ h.symm
          | revert hm; decide
  | case4 b1 b2 b3 rest ih =>
      simp only [base64Encode, List.mem_cons]
      push_neg
      exact ⟨(b64char_ne_comma _).symm, (b64char_ne_comma _).symm,
        (b64char_ne_comma _).symm, (b64char_ne_comma _).symm, ih⟩

/-- A char-list that starts with another contains all its members. -/
theorem listStartsWith_subset {p l : List Char} (h : listStartsWith p l = true) :
    ∀ x ∈ p, x ∈ l := by
  induction p generalizing l with
  | nil => intro x hx; cases hx
  | cons a p ih =>
      cases l with
      | nil => cases h
      | cons c cs =>
          rw [listStartsWith, Bool.and_eq_true, beq_iff_eq] at h
          intro x hx
          rcases List.mem_cons.mp hx with hx | hx
          · exact hx ▸ h.1 ▸ List.mem_cons_self c cs
          · exact List.mem_cons_of_mem c (ih h.2 x hx)

/-- In a comma-free char-list the marker never occurs, so the regex does
not match. -/
theorem afterLastMarker_none (l : List Char) (h : ',' ∉ l) :
    afterLastMarker l = none := by
  induction l with
  | nil => rfl
  | cons c cs ih =>
      have hcs : ',' ∉ cs := fun hm => h (List.mem_cons_of_mem c hm)
      rw [afterLastMarker, ih hcs]
      have hpre : listStartsWith b64Marker (c :: cs) = false := by
        by_contra hb
        have := listStartsWith_subset (Bool.of_not_eq_false hb) ',' (by decide)
        exact h this
      simp [hpre]

/-- The marker chars after its leading b never re-match when followed by a
comma-free tail. -/
theorem afterLastMarker_tail_none (e : List Char) (he : ',' ∉ e) :
    afterLastMarker ('a' :: 's' :: 'e' :: '6' :: '4' :: ',' :: e) = none := by
  have h1 : afterLastMarker (',' :: e) = none := by
    rw [afterLastMarker, afterLastMarker_none e he]; rfl
  have h2 : afterLastMarker ('4' :: ',' :: e) = none := by
    rw [afterLastMarker, h1]; rfl
  have h3 : afterLastMarker ('6' :: '4' :: ',' :: e) = none := by
    rw [afterLastMarker, h2]; rfl
  have h4 : afterLastMarker ('e' :: '6' :: '4' :: ',' :: e) = none := by
    rw [afterLastMarker, h3]; rfl
  have h5 : afterLastMarker ('s' :: 'e' :: '6' :: '4' :: ',' :: e) = none := by
    rw [afterLastMarker, h4]; rfl
  rw [afterLastMarker, h5]; rfl

/-- The regex strip finds exactly the final marker occurrence when the text
after the marker is comma-free. -/
theorem afterLastMarker_marker_append (a e : List Char) (he : ',' ∉ e) :
    afterLastMarker (a ++ (b64Marker ++ e)) = some e := by
  induction a with
  | nil =>
      show afterLastMarker ('b' :: 'a' :: 's' :: 'e' :: '6' :: '4' :: ',' :: e) =
        some e
      rw [afterLastMarker, afterLastMarker_tail_none e he]; rfl
  | cons c a ih =>
      rw [List.cons_append, afterLastMarker, ih]

/-- Accumulating data events in arrival order yields exactly that list. -/
theorem foldl_mediaRecorderOnData (ds acc : List (List Nat)) :
    ds.foldl mediaRecorderOnData acc = acc ++ ds := by
  induction ds generalizing acc with
  | nil => simp
  | cons d ds ih => simp [mediaRecorderOnData, ih]

/-- The replace at app.js line 150 strips exactly the data URL prefix,
leaving the bare base64 payload. -/
theorem jsReplaceUpToB64_dataURL (bs : List Nat) :
    jsReplaceUpToB64 (dataURLChars bs) = base64Encode bs := by
  have hpre : ("data:" ++ blobMime ++ ";base64,").toList =
      "data:audio/ogg; codecs=opus;".toList ++ b64Marker := by
    decide
  have hsplit : dataURLChars bs =
      "data:audio/ogg; codecs=opus;".toList ++ (b64Marker ++ base64Encode bs) := by
    show ("data:" ++ blobMime ++ ";base64,").toList ++ base64Encode bs = _
    rw [hpre, List.append_assoc]
  unfold jsReplaceUpToB64
  rw [hsplit, afterLastMarker_marker_append _ _ (comma_not_mem_base64Encode bs)]

/-- C8: for every completed capture session, stop concatenates the
accumulated binary chunks in arrival order into one opus-in-ogg blob,
clears the chunk buffer, renders one local audio self-message, and posts
type audio with the base64 payload of the clip, the data URL prefix
stripped. -/
theorem C8_onstop_pipeline (ds : List (List Nat)) :
    (mediaRecorderOnStop (ds.foldl mediaRecorderOnData [])).blobBytes =
      ds.flatten ∧
    (mediaRecorderOnStop (ds.foldl mediaRecorderOnData [])).blobMimeType =
      "audio/ogg; codecs=opus" ∧
    (mediaRecorderOnStop (ds.foldl mediaRecorderOnData [])).chunks = [] ∧
    (mediaRecorderOnStop (ds.foldl mediaRecorderOnData [])).effects =
      [.renderSelfAudio ds.flatten,
       .post "audio" (String.mk (base64Encode ds.flatten))] := by
  rw [foldl_mediaRecorderOnData ds []]
  refine ⟨rfl, rfl, rfl, ?_⟩
  simp only [mediaRecorderOnStop, List.nil_append, jsReplaceUpToB64_dataURL]

/-- Silent accumulation: done-false messages arriving while the chunk
buffer is already non-empty neither render nor touch the anchor, and the
closing done-true message replaces the anchor with the join of everything
received. -/
theorem runMessages_middle (ms : List ChunkMsg) (st : ESState)
    (hne : st.chunks ≠ []) (hmid : ∀ m ∈ ms, m.done = false)
    (last : ChunkMsg) (hl : last.done = true) (a : Nat) (hel : st.el = some a) :
    runMessages st (ms ++ [last]) =
      .ok { st with chunks := [] }
        [.replaceWith a
          (String.join (st.chunks ++ ms.map ChunkMsg.content ++ [last.content]))] := by
  induction ms generalizing st with
  | nil =>
      have hstep : onmessage st last =
          .ok { st with chunks := [] }
            [.replaceWith a (String.join (st.chunks ++ [last.content]))] := by
        unfold onmessage
        rw [hl, hel]
        rfl
      show runMessages st [last] = _
      rw [runMessages, hstep]
      simp [runMessages]
  | cons m ms ih =>
      have hm : m.done = false := hmid m (List.mem_cons_self m ms)
      have hlen : ¬((st.chunks ++ [m.content]).length = 1) := by
        rcases hc : st.chunks with _ | ⟨c, cs⟩
        · exact absurd hc hne
        · simp
      have hstep : onmessage st m =
          .ok { st with chunks := st.chunks ++ [m.content] } [] := by
        unfold onmessage
        rw [hm]
        simp only [Bool.false_eq_true, if_false]
        rw [if_neg hlen]
      have hih := ih { st with chunks := st.chunks ++ [m.content] }
        (by simp) (fun x hx => hmid x (List.mem_cons_of_mem m hx)) hel
      rw [List.cons_append, runMessages, hstep]
      simp [hih, List.append_assoc]

/-- C1: any reply whose first chunk arrives with done false accumulates
every chunk content in arrival order, renders nothing until the done
message, and then renders the full concatenation exactly once by replacing
exactly the one placeholder node it created on the first chunk, clearing
the chunk buffer afterwards. -/
theorem C1_streaming_reply_concat (first last : ChunkMsg) (ms : List ChunkMsg)
    (st : ESState) (hst : st.chunks = [])
    (hf : first.done = false) (hmid : ∀ m ∈ ms, m.done = false)
    (hl : last.done = true) :
    runMessages st (first :: (ms ++ [last])) =
      .ok ⟨some st.nextId, [], st.nextId + 1⟩
        [.addPlaceholder st.nextId,
         .replaceWith st.nextId
           (String.join (first.content :: (ms.map ChunkMsg.content ++ [last.content])))] := by
  have hstep : onmessage st first =
      .ok ⟨some st.nextId, [first.content], st.nextId + 1⟩
        [.addPlaceholder st.nextId] := by
    unfold onmessage
    rw [hf, hst]
    rfl
  have hml := runMessages_middle ms ⟨some st.nextId, [first.content], st.nextId + 1⟩
    (by simp) hmid last hl st.nextId rfl
  rw [runMessages, hstep]
  simp [hml]

/-- Witness for C1: the two chunk sequences named by the claim, run from
the fresh subscription state. -/
theorem C1_streaming_reply_concat_witness :
    runMessages esInit [⟨"Hel", false⟩, ⟨"lo", false⟩, ⟨" world", true⟩] =
      .ok ⟨some 0, [], 1⟩ [.addPlaceholder 0, .replaceWith 0 "Hello world"] ∧
    runMessages esInit [⟨"A", false⟩, ⟨"B", true⟩] =
      .ok ⟨some 0, [], 1⟩ [.addPlaceholder 0, .replaceWith 0 "AB"] := by
  constructor
  · exact (C1_streaming_reply_concat ⟨"Hel", false⟩ ⟨" world", true⟩
      [⟨"lo", false⟩] esInit rfl rfl (by decide) rfl).trans (by decide)
  · exact (C1_streaming_reply_concat ⟨"A", false⟩ ⟨"B", true⟩
      [] esInit rfl rfl (by decide) rfl).trans (by decide)

/-- On a textual signal from a non-RECORDING state, the next state depends
only on emptiness of the string. -/
theorem step_textual (m : Entity) (hm : m ≠ .record) (s : String) :
    inputStateMachineStep m (.str s) =
      if s = "" then .microphone else .submit := by
  cases m with
  | record => exact absurd rfl hm
  | microphone => rfl
  | submit => by_cases hs : s = "" <;> simp [inputStateMachineStep, jsTruthy, hs]

/-- The mode invariant holds on the fresh page state. -/
theorem modeInvariant_appInitState : modeInvariant appInitState := by
  refine ⟨?_, ?_, ?_⟩ <;> simp [modeInvariant, sessionOpen, appInitState]

/-- One event preserves the mode invariant, provided an input event is not
delivered while a capture session is open. -/
theorem modeInvariant_step (st : AppState) (e : UIEvent)
    (hinv : modeInvariant st)
    (hni : (∃ s, e = UIEvent.input s) → ¬ sessionOpen st) :
    modeInvariant (uiStep st e).1 := by
  obtain ⟨hsub, hrec, hfld⟩ := hinv
  cases e with
  | input s =>
      have hns : ¬ sessionOpen st := hni ⟨s, rfl⟩
      have hmode : st.mode ≠ .record := fun h => hns (hrec.mp h)
      have hstep := step_textual st.mode hmode s
      show modeInvariant (onInputEvent st s)
      unfold onInputEvent onMessageInputChange modeInvariant sessionOpen
      unfold sessionOpen at hns
      by_cases hs : s = ""
      · subst hs
        simp [hstep, hns]
      · simp [hstep, hs, hns]
  | click =>
      show modeInvariant (messageButtonClick st).1
      by_cases hf : st.field = ""
      · rcases hrc : st.recorder with _ | r
        · have hid : (messageButtonClick st).1 = st := by
            simp [messageButtonClick, hf, hrc]
          rw [hid]
          exact ⟨hsub, hrec, hfld⟩
        · cases r with
          | inactive =>
              have hns : ¬ sessionOpen st := by simp [sessionOpen, hrc]
              have hm1 : st.mode ≠ .record := fun h => hns (hrec.mp h)
              have hm2 : st.mode ≠ .submit := fun h => (hsub.mp h).1 hf
              have hm : st.mode = .microphone := by
                cases hmm : st.mode
                · rfl
                · exact absurd hmm hm1
                · exact absurd hmm hm2
              have hcl : (messageButtonClick st).1 = { st with mode := .record, buttonGlyph := .record, pulse := true, recorder := some .recording } := by
                simp [messageButtonClick, hf, hrc, hm, inputStateMachineStep]
              rw [hcl]
              refine ⟨?_, ?_, ?_⟩ <;> simp [modeInvariant, sessionOpen, hf]
          | recording =>
              have hop : sessionOpen st := hrc
              have hm : st.mode = .record := hrec.mpr hop
              have hcl : (messageButtonClick st).1 = { st with mode := .microphone, buttonGlyph := .microphone, pulse := false, recorder := some .inactive } := by
                simp [messageButtonClick, hf, hrc, hm, inputStateMachineStep]
              rw [hcl]
              refine ⟨?_, ?_, ?_⟩ <;> simp [modeInvariant, sessionOpen, hf]
      · have hcl := messageButtonClick_text st hf
        have hns : ¬ sessionOpen st := fun ho => hf (hfld ho)
        rw [show (messageButtonClick st).1 = onMessageInputChange { st with field := "" } from congrArg Prod.fst hcl]
        unfold onMessageInputChange modeInvariant sessionOpen
        unfold sessionOpen at hns
        simp [step_emptyStr_microphone, hns]
  | grantRecorder =>
      show modeInvariant (uiStep st .grantRecorder).1
      by_cases hr : st.recorder = none
      · have hns : ¬ sessionOpen st := by simp [sessionOpen, hr]
        have h1 : st.mode ≠ .record := fun h => hns (hrec.mp h)
        have h2 : st.mode = .submit ↔ st.field ≠ "" :=
          ⟨fun h => (hsub.mp h).1, fun h => hsub.mpr ⟨h, hns⟩⟩
        have hst : (uiStep st .grantRecorder).1 = { st with recorder := some .inactive } := by
          simp [uiStep, hr]
        rw [hst]
        refine ⟨?_, ?_, ?_⟩ <;> simp [modeInvariant, sessionOpen, h1, h2]
      · have hst : (uiStep st .grantRecorder).1 = st := by
          simp [uiStep, hr]
        rw [hst]
        exact ⟨hsub, hrec, hfld⟩

/-- The mode invariant holds after any trace without an input event during
an open session. -/
theorem modeInvariant_runUI (evs : List UIEvent) (st : AppState)
    (hinv : modeInvariant st) (hval : noInputWhileRecording st evs) :
    modeInvariant (runUI st evs).1 := by
  induction evs generalizing st with
  | nil => exact hinv
  | cons e evs ih =>
      obtain ⟨h1, h2⟩ := hval
      simp only [runUI]
      exact ih (uiStep st e).1 (modeInvariant_step st e hinv h1) h2

/-- C3 counterexample: grant the recorder, click to start a capture, then
fire a text-input event carrying "a" while the session records; the session
is still open but the RECORDING handler ignored the signal and moved the
mode to MIC, so Mode = RECORDING no longer matches the open session. -/
theorem C3_counterexample_input_while_recording :
    sessionOpen (runUI appInitState [.grantRecorder, .click, .input "a"]).1 ∧
    (runUI appInitState [.grantRecorder, .click, .input "a"]).1.mode =
      .microphone ∧
    ¬ ((runUI appInitState [.grantRecorder, .click, .input "a"]).1.mode =
        .record ↔
      sessionOpen (runUI appInitState [.grantRecorder, .click, .input "a"]).1) := by
  refine ⟨rfl, rfl, ?_⟩
  intro h
  exact absurd (h.mpr rfl) (by decide)

/-- C3 (amended): over every reachable interleaving in which no text-input
event fires while a capture session is open, Mode is SUBMIT exactly when
the field is non-empty with no open session, and RECORDING exactly when a
session is open. -/
theorem C3_mode_matches_field_and_session (evs : List UIEvent)
    (h : noInputWhileRecording appInitState evs) :
    ((runUI appInitState evs).1.mode = .submit ↔
      ((runUI appInitState evs).1.field ≠ "" ∧
        ¬ sessionOpen (runUI appInitState evs).1)) ∧
    ((runUI appInitState evs).1.mode = .record ↔
      sessionOpen (runUI appInitState evs).1) :=
  ⟨(modeInvariant_runUI evs appInitState modeInvariant_appInitState h).1,
   (modeInvariant_runUI evs appInitState modeInvariant_appInitState h).2.1⟩

/-- Witness for the amended C3 on the trace grant, click (start recording),
click (stop), input "x". -/
theorem C3_mode_matches_field_and_session_witness :
    ((runUI appInitState [.grantRecorder, .click, .click, .input "x"]).1.mode =
        .submit ↔
      ((runUI appInitState [.grantRecorder, .click, .click, .input "x"]).1.field ≠ "" ∧
        ¬ sessionOpen
          (runUI appInitState [.grantRecorder, .click, .click, .input "x"]).1)) ∧
    ((runUI appInitState [.grantRecorder, .click, .click, .input "x"]).1.mode =
        .record ↔
      sessionOpen
        (runUI appInitState [.grantRecorder, .click, .click, .input "x"]).1) :=
  C3_mode_matches_field_and_session [.grantRecorder, .click, .click, .input "x"]
    ⟨(by rintro ⟨s, hs⟩; cases hs),
     (by rintro ⟨s, hs⟩; cases hs),
     (by rintro ⟨s, hs⟩; cases hs),
     (by intro h; decide),
     trivial⟩

end Shh
